import Mathlib

/-!
Shallow embedding of the deep-research orchestration engine in
`2_openai/deep_research_workflow/research_manager.py` together with the agent
output schemas it consumes (`router_agent.py`, `planner_agent.py`,
`evaluator_agent.py`).  External LLM capabilities (classifier, planner,
search, writer, evaluator, email) are modelled as oracle functions passed in
as parameters; the nondeterministic completion order of `asyncio.as_completed`
is modelled as a `schedule` function reordering the task list.
-/

namespace DeepResearch

/-- `QueryRoute` from `router_agent.py`: a pydantic model whose `route` field
is `Literal["quick", "deep", "technical", "comparative"]`.  The structure
itself carries the three fields; the `Literal` validation performed by
pydantic at construction time is modelled separately by `mkQueryRoute`. -/
structure QueryRoute where
  route : String
  reasoning : String
  num_searches : Nat
deriving DecidableEq, Repr

/-- The four admissible values of the `route` field's `Literal` type in
`router_agent.py`. -/
def routeLabels : List String := ["quick", "deep", "technical", "comparative"]

/-- Constructing a `QueryRoute(...)` in Python runs pydantic validation: a
`route` value outside the `Literal["quick","deep","technical","comparative"]`
enumeration raises a `ValidationError`.  `mkQueryRoute` returns that failure
as `.error "ValidationError"`. -/
def mkQueryRoute (route reasoning : String) (num_searches : Nat) :
    Except String QueryRoute :=
  if routeLabels.contains route then
    .ok ⟨route, reasoning, num_searches⟩
  else
    .error "ValidationError"

/-- The `route_map.get(route_override, 5)` lookup in
`ResearchManager.route_query` (lines 88-94): quick ↦ 3, deep ↦ 5,
technical ↦ 5, comparative ↦ 6, anything else ↦ the default 5. -/
def route_map_get (r : String) : Nat :=
  if r = "quick" then 3
  else if r = "deep" then 5
  else if r = "technical" then 5
  else if r = "comparative" then 6
  else 5

/-- `ResearchManager.route_query` (lines 76-108), instrumented with the number
of classifier invocations (the `Runner.run(router_agent, ...)` call).
`classify` is the oracle for the external classification capability applied to
the prompt string; its result stands for the already-validated
`final_output_as(QueryRoute)`.  Python truthiness of `route_override` means
`None` and the empty string both take the classification path. -/
def route_query_c (query : String) (route_override : Option String)
    (classify : String → QueryRoute) : Except String QueryRoute × Nat :=
  let o := route_override.getD ""
  if o ≠ "" then
    (mkQueryRoute o ("Manually selected " ++ o ++ " route") (route_map_get o), 0)
  else
    (.ok (classify ("Query: " ++ query)), 1)

/-- `WebSearchItem` from `planner_agent.py`. -/
structure WebSearchItem where
  reason : String
  query : String
deriving DecidableEq, Repr

/-- `WebSearchPlan` from `planner_agent.py`. -/
structure WebSearchPlan where
  searches : List WebSearchItem
deriving DecidableEq, Repr

/-- The prompt `ResearchManager.plan_searches` sends to the planner
capability (line 117). -/
def plan_prompt (query : String) (num_searches : Nat) : String :=
  "Query: " ++ query ++ "\nNumber of searches to plan: " ++ toString num_searches

/-- `ResearchManager.plan_searches` (lines 110-120): one invocation of the
external planning capability; whatever plan the capability returns is passed
through unmodified. -/
def plan_searches (planner : String → WebSearchPlan) (query : String)
    (num_searches : Nat) : WebSearchPlan :=
  planner (plan_prompt query num_searches)

/-- The `search_input` string built in `ResearchManager.search`
(lines 183-186). -/
def search_input (item : WebSearchItem) : String :=
  "Search term: " ++ item.query ++ "\nReason for searching: " ++ item.reason

/-- `ResearchManager.search` (lines 181-194): invokes the external search
capability on `search_input item`; any exception (`.error`) is caught and
converted to `none`. -/
def search (capability : String → Except String String)
    (item : WebSearchItem) : Option String :=
  match capability (search_input item) with
  | .ok r => some r
  | .error _ => none

/-- `ResearchManager.perform_searches` (lines 161-179): one task per plan
item, results collected in `asyncio.as_completed` completion order (modelled
by `schedule`, which in any actual run permutes the task list), `None`
results dropped. -/
def perform_searches (searcher : WebSearchItem → Option String)
    (search_plan : WebSearchPlan)
    (schedule : List WebSearchItem → List WebSearchItem) : List String :=
  ((schedule search_plan.searches).map searcher).filterMap id

/-- Modelled from the spec: `writer_agent.py` (defining `ReportData`) is not
among the sources; §3 gives the ReportDraft shape
`{markdown_report, short_summary, follow_up_questions}`, and
`research_manager.py` itself reads the `markdown_report` field. -/
structure ReportData where
  markdown_report : String
  short_summary : String
  follow_up_questions : List String
deriving DecidableEq, Repr

/-- `ReportEvaluation` from `evaluator_agent.py`. -/
structure ReportEvaluation where
  is_acceptable : Bool
  issues : List String
  suggestions : String
  score : Int
deriving DecidableEq, Repr

/-- `MAX_REVISION_ATTEMPTS = 2` (research_manager.py line 11). -/
def MAX_REVISION_ATTEMPTS : Nat := 2

/-- The revision feedback string built in
`ResearchManager.write_report_with_evaluation` (lines 267-270). -/
def mkFeedback (evaluation : ReportEvaluation) : String :=
  "Issues: " ++ String.intercalate ", " evaluation.issues ++
  "\nSuggestions: " ++ evaluation.suggestions

/-- Outcome of the revision loop: the returned draft (`none` models the
`NameError` Python would raise on the dead `return report` after the loop,
reachable only if `MAX_REVISION_ATTEMPTS` were 0), the final value of the
`attempt` counter, and the numbers of Writer and Evaluator invocations. -/
structure LoopOut where
  report : Option ReportData
  attempts : Nat
  writerCalls : Nat
  evaluatorCalls : Nat
deriving DecidableEq, Repr

/-- The `while attempt < MAX_REVISION_ATTEMPTS` loop body of
`ResearchManager.write_report_with_evaluation` (lines 242-277), with
`fuel = MAX_REVISION_ATTEMPTS - attempt` making the guard structural.
`writeReport fb` stands for `self.write_report(query, search_results, fb)`
and `evaluateReport r` for `self.evaluate_report(query, r, search_results)`. -/
def revisionLoop (writeReport : String → ReportData)
    (evaluateReport : ReportData → ReportEvaluation) (routeLabel : String) :
    Nat → Nat → String → LoopOut
  | 0, attempt, _ => ⟨none, attempt, 0, 0⟩
  | fuel + 1, attempt, feedback =>
    let attempt1 := attempt + 1
    let report := writeReport feedback
    if routeLabel = "quick" ∨ MAX_REVISION_ATTEMPTS ≤ attempt1 then
      ⟨some report, attempt1, 1, 0⟩
    else
      let evaluation := evaluateReport report
      if evaluation.is_acceptable then
        ⟨some report, attempt1, 1, 1⟩
      else
        let rest := revisionLoop writeReport evaluateReport routeLabel fuel
          attempt1 (mkFeedback evaluation)
        ⟨rest.report, rest.attempts, rest.writerCalls + 1, rest.evaluatorCalls + 1⟩

/-- `ResearchManager.write_report_with_evaluation` (lines 238-277),
parameterized by the Writer (`write_report`, lines 196-215) and Evaluator
(`evaluate_report`, lines 217-236) as oracles, instrumented with call
counts. -/
def write_report_with_evaluation (query : String) (search_results : List String)
    (route : QueryRoute) (write_report : String → List String → String → ReportData)
    (evaluate_report : String → ReportData → List String → ReportEvaluation) :
    LoopOut :=
  revisionLoop (fun fb => write_report query search_results fb)
    (fun r => evaluate_report query r search_results)
    route.route MAX_REVISION_ATTEMPTS 0 ""

/-- Python's `not answer.strip()`: the answer is blank iff every character is
whitespace (in particular the empty string is blank). -/
def isBlank (s : String) : Bool := s.data.all Char.isWhitespace

/-- The loop body of `ResearchManager.enrich_query` (lines 156-158): append
the pair unless its answer is blank. -/
def enrichStep (acc : String) (p : String × String) : String :=
  if isBlank p.2 then acc
  else acc ++ "- " ++ p.1 ++ "\n  Answer: " ++ p.2 ++ "\n"

/-- `ResearchManager.enrich_query` (lines 145-159), on genuine
`(question, answer)` pairs. -/
def enrich_query (original_query : String)
    (qa_pairs : List (String × String)) : String :=
  if qa_pairs.isEmpty || qa_pairs.all (fun p => isBlank p.2) then
    original_query
  else
    qa_pairs.foldl enrichStep
      ("Original Query: " ++ original_query ++ "\n\nAdditional Context:\n")

/-- Python's tuple unpacking `question, answer = s` applied to a string `s`,
as happens when `ResearchManager.run` passes its `clarifying_answers:
list[str]` to `enrich_query`: a 2-character string unpacks into its two
characters; any other length raises a `ValueError`. -/
def unpackPair (s : String) : Except String (String × String) :=
  match s.data with
  | [c1, c2] => .ok (String.mk [c1], String.mk [c2])
  | _ => .error "ValueError"

/-- Tuple-unpacking of every element of a `list[str]`, as the iteration in
`enrich_query` performs it: the first element whose length is not 2 raises
`ValueError`. -/
def unpackAll : List String → Except String (List (String × String))
  | [] => .ok []
  | s :: rest =>
    match unpackPair s with
    | .error e => .error e
    | .ok p =>
      match unpackAll rest with
      | .error e => .error e
      | .ok ps => .ok (p :: ps)

/-- `enrich_query` as reached from `ResearchManager.run` with a `list[str]`
argument: every element is tuple-unpacked (raising `ValueError` on any
element whose length is not 2) and the unpacked pairs are enriched. -/
def enrich_query_strings (original_query : String)
    (answers : List String) : Except String String :=
  match unpackAll answers with
  | .error e => .error e
  | .ok pairs => .ok (enrich_query original_query pairs)

/-- The trace message printed and yielded first by `ResearchManager.run`
(lines 30-37). -/
def trace_message (trace_id : String) : String :=
  "View trace: https://platform.openai.com/traces/trace?trace_id=" ++ trace_id

/-- Invocation counts of the external capabilities during a run. -/
structure Counters where
  classifierCalls : Nat
  plannerCalls : Nat
  searchCalls : Nat
  writerCalls : Nat
  evaluatorCalls : Nat
deriving DecidableEq, Repr

/-- `ResearchManager.run` (lines 16-74): the full orchestration, returning
the ordered list of `yield`ed progress messages (or the uncaught exception)
together with capability invocation counts.  Oracles: `classify`, `planner`,
`search_capability`, `writer`, `evaluator`, `emailer`; `schedule` models the
completion order of `asyncio.as_completed`. -/
def run (query : String) (clarifying_answers : Option (List String))
    (route_override : Option String) (trace_id : String)
    (classify : String → QueryRoute) (planner : String → WebSearchPlan)
    (search_capability : String → Except String String)
    (schedule : List WebSearchItem → List WebSearchItem)
    (writer : String → List String → String → ReportData)
    (evaluator : String → ReportData → List String → ReportEvaluation)
    (emailer : String → Except String Unit) :
    Except String (List String) × Counters :=
  let enrichment : Except String String :=
    match clarifying_answers with
    | some l => if l.isEmpty then .ok query else enrich_query_strings query l
    | none => .ok query
  match enrichment with
  | .error e => (.error e, ⟨0, 0, 0, 0, 0⟩)
  | .ok enriched =>
    let o := route_override.getD ""
    let manual : Bool := o ≠ "" && o ≠ "auto"
    let routing := if manual then route_query_c enriched (some o) classify
                   else route_query_c enriched none classify
    match routing with
    | (.error e, cc) => (.error e, ⟨cc, 0, 0, 0, 0⟩)
    | (.ok route, cc) =>
      let routeMsgs :=
        if manual then
          ["Using manual route: " ++ o,
           "Route: " ++ route.route ++ " (" ++ route.reasoning ++ ")"]
        else
          ["Analyzing query type (auto-routing)...",
           "Route: " ++ route.route ++ " (" ++ route.reasoning ++ ")"]
      let search_plan := plan_searches planner enriched route.num_searches
      let tasks := schedule search_plan.searches
      let search_results := perform_searches (search search_capability)
        search_plan schedule
      let loop := write_report_with_evaluation enriched search_results route
        writer evaluator
      let counters : Counters :=
        ⟨cc, 1, tasks.length, loop.writerCalls, loop.evaluatorCalls⟩
      match loop.report with
      | none => (.error "NameError", counters)
      | some report =>
        match emailer report.markdown_report with
        | .error e => (.error e, counters)
        | .ok _ =>
          (.ok (trace_message trace_id :: routeMsgs ++
            ["Searches planned, starting to search...",
             "Searches complete, writing report...",
             "Report finalized, sending email...",
             "Email sent, research complete",
             report.markdown_report]), counters)

/-! ## Theorems -/

/-- C1: for every query and search-result list, if the route is `"quick"`
then `write_report_with_evaluation` invokes the Evaluator exactly 0 times and
the Writer exactly 1 time, returning the first draft (written with empty
feedback). -/
theorem quick_route_zero_evaluations (query : String)
    (search_results : List String) (route : QueryRoute)
    (write_report : String → List String → String → ReportData)
    (evaluate_report : String → ReportData → List String → ReportEvaluation)
    (h : route.route = "quick") :
    write_report_with_evaluation query search_results route write_report
        evaluate_report =
      ⟨some (write_report query search_results ""), 1, 1, 0⟩ := by
  simp [write_report_with_evaluation, MAX_REVISION_ATTEMPTS, revisionLoop, h]

/-- Witness for `quick_route_zero_evaluations` at a concrete input. -/
theorem quick_route_zero_evaluations_witness :
    (QueryRoute.mk "quick" "r" 3).route = "quick" ∧
    write_report_with_evaluation "q" ["res"] ⟨"quick", "r", 3⟩
        (fun _ _ _ => ⟨"MD", "S", []⟩) (fun _ _ _ => ⟨false, ["i"], "s", 2⟩) =
      ⟨some ⟨"MD", "S", []⟩, 1, 1, 0⟩ :=
  ⟨rfl, quick_route_zero_evaluations "q" ["res"] ⟨"quick", "r", 3⟩ _ _ rfl⟩

/-- C2: for every non-quick route, the revision loop terminates with a draft,
makes exactly one Writer call per attempt, at most
`MAX_REVISION_ATTEMPTS = 2` attempts, and exactly
`MAX_REVISION_ATTEMPTS - 1 = 1` Evaluator calls (so the final allowed attempt
is never evaluated: its draft is returned unconditionally). -/
theorem nonquick_route_bounded_loop (query : String)
    (search_results : List String) (route : QueryRoute)
    (write_report : String → List String → String → ReportData)
    (evaluate_report : String → ReportData → List String → ReportEvaluation)
    (h : route.route ≠ "quick") :
    let out := write_report_with_evaluation query search_results route
      write_report evaluate_report
    out.report.isSome = true ∧ out.writerCalls = out.attempts ∧
    out.writerCalls ≤ MAX_REVISION_ATTEMPTS ∧
    out.evaluatorCalls = MAX_REVISION_ATTEMPTS - 1 := by
  by_cases hacc : (evaluate_report query
      (write_report query search_results "") search_results).is_acceptable <;>
    simp [write_report_with_evaluation, MAX_REVISION_ATTEMPTS, revisionLoop,
      h, hacc]

/-- Witness for `nonquick_route_bounded_loop` at a concrete input. -/
theorem nonquick_route_bounded_loop_witness :
    (QueryRoute.mk "deep" "r" 5).route ≠ "quick" ∧
    (let out := write_report_with_evaluation "q" ["res"] ⟨"deep", "r", 5⟩
      (fun _ _ _ => ⟨"MD", "S", []⟩) (fun _ _ _ => ⟨false, ["i"], "s", 2⟩)
     out.report.isSome = true ∧ out.writerCalls = out.attempts ∧
     out.writerCalls ≤ MAX_REVISION_ATTEMPTS ∧
     out.evaluatorCalls = MAX_REVISION_ATTEMPTS - 1) :=
  ⟨by decide, nonquick_route_bounded_loop "q" ["res"] ⟨"deep", "r", 5⟩ _ _
    (by decide)⟩

/-- C4 counterexample: at the unknown override label `"banana"`,
`route_query` does not return normally with `num_searches = 5`: constructing
the `QueryRoute` fails the `Literal` validation and the call raises. -/
theorem route_query_unknown_override_cex :
    (route_query_c "q" (some "banana") (fun _ => ⟨"deep", "r", 5⟩)).1 =
      .error "ValidationError" := by
  rfl

/-- C4 amended: for every non-empty override label outside the four known
ones, `route_query` computes the fallback search-count 5 from
`route_map.get(_, 5)` but raises a `ValidationError` while constructing the
`QueryRoute` (its `route` field is a `Literal` of the four labels), invoking
the classifier zero times; it does not return normally. -/
theorem route_query_unknown_override_raises (q o : String)
    (classify : String → QueryRoute) (h1 : o ∉ routeLabels) (h2 : o ≠ "") :
    route_map_get o = 5 ∧
    route_query_c q (some o) classify = (.error "ValidationError", 0) := by
  have hne : o ≠ "quick" ∧ o ≠ "deep" ∧ o ≠ "technical" ∧ o ≠ "comparative" := by
    simpa [routeLabels, not_or] using h1
  obtain ⟨n1, n2, n3, n4⟩ := hne
  have hc : routeLabels.contains o = false := by
    simp [routeLabels, n1, n2, n3, n4]
  constructor
  · simp [route_map_get, n1, n2, n3, n4]
  · simp [route_query_c, h2, mkQueryRoute, hc, h1]

/-- Witness for `route_query_unknown_override_raises` at a concrete input. -/
theorem route_query_unknown_override_raises_witness :
    "banana" ∉ routeLabels ∧ ("banana" : String) ≠ "" ∧
    (route_map_get "banana" = 5 ∧
     route_query_c "q" (some "banana") (fun _ => ⟨"deep", "r", 5⟩) =
       (.error "ValidationError", 0)) :=
  ⟨by decide, by decide,
   route_query_unknown_override_raises "q" "banana" (fun _ => ⟨"deep", "r", 5⟩)
     (by decide) (by decide)⟩

/-- C5: for every known override label, `route_query` returns a route with
that label, reasoning `"Manually selected <override> route"` and the
canonical search-count (quick 3, deep 5, technical 5, comparative 6), and
invokes the classification capability zero times. -/
theorem route_query_known_override (q o : String)
    (classify : String → QueryRoute) (h : o ∈ routeLabels) :
    route_query_c q (some o) classify =
      (.ok ⟨o, "Manually selected " ++ o ++ " route", route_map_get o⟩, 0) ∧
    route_map_get "quick" = 3 ∧ route_map_get "deep" = 5 ∧
    route_map_get "technical" = 5 ∧ route_map_get "comparative" = 6 := by
  refine ⟨?_, by decide, by decide, by decide, by decide⟩
  simp only [routeLabels, List.mem_cons, List.not_mem_nil, or_false] at h
  rcases h with h | h | h | h <;> subst h <;> rfl

/-- Witness for `route_query_known_override` at a concrete input. -/
theorem route_query_known_override_witness :
    "quick" ∈ routeLabels ∧
    (route_query_c "q" (some "quick") (fun _ => ⟨"deep", "r", 5⟩) =
      (.ok ⟨"quick", "Manually selected " ++ "quick" ++ " route",
        route_map_get "quick"⟩, 0) ∧
     route_map_get "quick" = 3 ∧ route_map_get "deep" = 5 ∧
     route_map_get "technical" = 5 ∧ route_map_get "comparative" = 6) :=
  ⟨by decide,
   route_query_known_override "q" "quick" (fun _ => ⟨"deep", "r", 5⟩)
     (by decide)⟩

/-- C8 counterexample: the search unit does not invoke the capability with
`"Search term: <term>\nReason: <reason>"`.  The actual input string differs
from the claimed one, and two capabilities that agree on the claimed string
can give different `search` outcomes. -/
theorem search_input_format_cex :
    search_input ⟨"r1", "t1"⟩ ≠ "Search term: t1\nReason: r1" ∧
    ((fun s => if s = "Search term: t1\nReason for searching: r1" then
        (.ok "X" : Except String String) else .error "boom")
          "Search term: t1\nReason: r1" =
      (fun _ => (.error "boom" : Except String String))
          "Search term: t1\nReason: r1") ∧
    search (fun s => if s = "Search term: t1\nReason for searching: r1" then
        .ok "X" else .error "boom") ⟨"r1", "t1"⟩ ≠
      search (fun _ => .error "boom") ⟨"r1", "t1"⟩ := by
  refine ⟨by decide, by rfl, by decide⟩

/-- C8 amended: the search unit invokes the external search capability with
the input string exactly `"Search term: " ++ term ++ "\nReason for
searching: " ++ reason`: the outcome of `search` depends only on the
capability's value at that string. -/
theorem search_invokes_capability_on_term_and_reason (item : WebSearchItem)
    (capA capB : String → Except String String)
    (h : capA ("Search term: " ++ item.query ++
          "\nReason for searching: " ++ item.reason) =
        capB ("Search term: " ++ item.query ++
          "\nReason for searching: " ++ item.reason)) :
    search capA item = search capB item := by
  simp only [search, search_input]
  rw [h]

/-- Witness for `search_invokes_capability_on_term_and_reason` at a concrete
input. -/
theorem search_invokes_capability_on_term_and_reason_witness :
    ((fun _ => (.ok "A" : Except String String)) ("Search term: " ++ "t1" ++
        "\nReason for searching: " ++ "r1") =
      (fun _ => (.ok "A" : Except String String)) ("Search term: " ++ "t1" ++
        "\nReason for searching: " ++ "r1")) ∧
    search (fun _ => .ok "A") ⟨"r1", "t1"⟩ =
      search (fun _ => .ok "A") ⟨"r1", "t1"⟩ :=
  ⟨rfl, search_invokes_capability_on_term_and_reason ⟨"r1", "t1"⟩
    (fun _ => .ok "A") (fun _ => .ok "A") rfl⟩

/-- C7 counterexample: the Planner does not guarantee a plan of length equal
to the requested search-count: a planning capability answering with an empty
plan yields an empty `SearchPlan` even though 5 searches were requested. -/
theorem plan_searches_length_cex :
    (plan_searches (fun _ => ⟨[]⟩) "q" 5).searches.length ≠ 5 := by
  decide

/-- C7 amended: `plan_searches` passes the external planning capability's
plan through unmodified (no truncation or padding), so the plan's length
equals the requested `num_searches` exactly when the capability honors the
request; the Planner itself does not enforce the invariant. -/
theorem plan_searches_passthrough (planner : String → WebSearchPlan)
    (q : String) (n : Nat) :
    plan_searches planner q n = planner (plan_prompt q n) ∧
    ((planner (plan_prompt q n)).searches.length = n →
      (plan_searches planner q n).searches.length = n) :=
  ⟨rfl, fun h => h⟩

/-- Witness for `plan_searches_passthrough` at a concrete input. -/
theorem plan_searches_passthrough_witness :
    (plan_searches (fun _ => ⟨[⟨"r", "t"⟩]⟩) "q" 1 =
      (fun _ => (⟨[⟨"r", "t"⟩]⟩ : WebSearchPlan)) (plan_prompt "q" 1)) ∧
    (((fun _ => (⟨[⟨"r", "t"⟩]⟩ : WebSearchPlan))
        (plan_prompt "q" 1)).searches.length = 1 ∧
     (plan_searches (fun _ => ⟨[⟨"r", "t"⟩]⟩) "q" 1).searches.length = 1) :=
  ⟨(plan_searches_passthrough (fun _ => ⟨[⟨"r", "t"⟩]⟩) "q" 1).1, by decide,
   (plan_searches_passthrough (fun _ => ⟨[⟨"r", "t"⟩]⟩) "q" 1).2 (by decide)⟩

/-- The length of a `filterMap` counts the inputs sent to `some`. -/
theorem length_filterMap_eq_countP {α β : Type} (g : α → Option β)
    (l : List α) :
    (l.filterMap g).length = l.countP (fun a => (g a).isSome) := by
  induction l with
  | nil => simp
  | cons a t ih =>
    cases hga : g a with
    | none => simp [List.filterMap_cons, hga, List.countP_cons, ih]
    | some b => simp [List.filterMap_cons, hga, List.countP_cons, ih]

/-- Counting successes is the complement of counting failures. -/
theorem countP_isSome_eq_length_sub {α β : Type} (g : α → Option β)
    (l : List α) :
    l.countP (fun a => (g a).isSome) =
      l.length - l.countP (fun a => (g a).isNone) := by
  induction l with
  | nil => simp
  | cons a t ih =>
    have hb := List.countP_le_length (fun a => (g a).isNone) (l := t)
    cases hga : g a with
    | none =>
      simp [List.countP_cons, hga, ih]
      try omega
    | some b =>
      simp [List.countP_cons, hga, ih]
      try omega

/-- C3: for every plan of `N` items of which `K` search invocations fail,
`perform_searches` returns `N - K` results, in whatever completion order the
scheduler produces; each unit's failure is caught locally by `search` and
converted to `none`, and `none` results are excluded from the returned
collection. -/
theorem perform_searches_length (search_plan : WebSearchPlan)
    (capability : String → Except String String)
    (schedule : List WebSearchItem → List WebSearchItem)
    (hperm : (schedule search_plan.searches).Perm search_plan.searches) :
    (∀ item e, capability (search_input item) = .error e →
      search capability item = none) ∧
    (perform_searches (search capability) search_plan schedule).length =
      search_plan.searches.length -
        search_plan.searches.countP
          (fun i => (search capability i).isNone) := by
  constructor
  · intro item e he
    simp [search, he]
  · have h1 : perform_searches (search capability) search_plan schedule =
        (schedule search_plan.searches).filterMap (search capability) := by
      simp [perform_searches, List.filterMap_map, Function.comp]
    rw [h1, length_filterMap_eq_countP, hperm.countP_eq,
      countP_isSome_eq_length_sub]

/-- Witness for `perform_searches_length`: a three-item plan whose middle
search fails, collected in submission order. -/
theorem perform_searches_length_witness :
    ((id ([⟨"ra", "a"⟩, ⟨"rb", "b"⟩, ⟨"rc", "c"⟩] :
        List WebSearchItem)).Perm [⟨"ra", "a"⟩, ⟨"rb", "b"⟩, ⟨"rc", "c"⟩]) ∧
    ((∀ item e, (fun s => if s = search_input ⟨"rb", "b"⟩ then
          (.error "boom" : Except String String) else .ok s) (search_input item) =
            .error e →
        search (fun s => if s = search_input ⟨"rb", "b"⟩ then
          .error "boom" else .ok s) item = none) ∧
     (perform_searches (search (fun s => if s = search_input ⟨"rb", "b"⟩ then
          .error "boom" else .ok s))
        ⟨[⟨"ra", "a"⟩, ⟨"rb", "b"⟩, ⟨"rc", "c"⟩]⟩ id).length =
      ([⟨"ra", "a"⟩, ⟨"rb", "b"⟩, ⟨"rc", "c"⟩] : List WebSearchItem).length -
        ([⟨"ra", "a"⟩, ⟨"rb", "b"⟩, ⟨"rc", "c"⟩] : List WebSearchItem).countP
          (fun i => (search (fun s => if s = search_input ⟨"rb", "b"⟩ then
            .error "boom" else .ok s) i).isNone)) :=
  ⟨List.Perm.refl _,
   perform_searches_length ⟨[⟨"ra", "a"⟩, ⟨"rb", "b"⟩, ⟨"rc", "c"⟩]⟩
     (fun s => if s = search_input ⟨"rb", "b"⟩ then .error "boom" else .ok s)
     id (List.Perm.refl _)⟩

/-- `String.append` concatenates the underlying character lists. -/
theorem strData_append (s t : String) : (s ++ t).data = s.data ++ t.data := by
  cases s
  cases t
  rfl

/-- Folding `enrichStep` only ever appends to the accumulator. -/
theorem foldl_enrichStep_grows (l : List (String × String)) (acc : String) :
    acc.data <+: (l.foldl enrichStep acc).data := by
  induction l generalizing acc with
  | nil => exact List.prefix_refl _
  | cons p t ih =>
    refine List.IsPrefix.trans ?_ (ih (enrichStep acc p))
    by_cases hb : isBlank p.2
    · simp [enrichStep, hb]
    · simp only [enrichStep, hb, if_false, Bool.false_eq_true, if_neg]
      simp only [strData_append, List.append_assoc]
      exact List.prefix_append _ _

/-- A non-blank answer of a listed pair ends up inside the fold result. -/
theorem foldl_enrichStep_infix_answer (l : List (String × String))
    (p : String × String) (hp : p ∈ l) (hb : isBlank p.2 = false)
    (acc : String) :
    p.2.data <:+: (l.foldl enrichStep acc).data := by
  induction l generalizing acc with
  | nil => cases hp
  | cons r t ih =>
    rcases List.mem_cons.mp hp with h | h
    · subst h
      refine List.IsInfix.trans ?_
        (foldl_enrichStep_grows t (enrichStep acc p)).isInfix
      simp only [enrichStep, hb, Bool.false_eq_true, if_neg, if_false]
      simp only [strData_append, List.append_assoc]
      exact ⟨acc.data ++ ("- ".data ++ (p.1.data ++ "\n  Answer: ".data)),
        "\n".data, by simp [List.append_assoc]⟩
    · exact ih h (enrichStep acc r)

/-- Folding `enrichStep` ignores the blank-answer pairs. -/
theorem foldl_enrichStep_filter (l : List (String × String)) (acc : String) :
    l.foldl enrichStep acc =
      (l.filter fun p => !isBlank p.2).foldl enrichStep acc := by
  induction l generalizing acc with
  | nil => rfl
  | cons r t ih =>
    by_cases hb : isBlank r.2
    · simpa [List.filter_cons, hb, enrichStep] using ih acc
    · simp [List.filter_cons, hb, ih]

/-- C6: `enrich_query` is pure; on the empty list it is the identity on the
query; if every answer is blank it is the identity on the query; blank-answer
pairs are dropped (filtering them away does not change the result); and any
pair with a non-blank answer forces both the original query and that answer
to occur inside the enriched query. -/
theorem enrich_query_spec (q : String) (pairs : List (String × String)) :
    enrich_query q [] = q ∧
    ((∀ p ∈ pairs, isBlank p.2 = true) → enrich_query q pairs = q) ∧
    enrich_query q pairs =
      enrich_query q (pairs.filter fun p => !isBlank p.2) ∧
    (∀ p ∈ pairs, isBlank p.2 = false →
      q.data <:+: (enrich_query q pairs).data ∧
      p.2.data <:+: (enrich_query q pairs).data) := by
  refine ⟨rfl, ?_, ?_, ?_⟩
  · intro h
    have hall : pairs.all (fun p => isBlank p.2) = true :=
      List.all_eq_true.mpr h
    simp [enrich_query, hall]
  · by_cases hall : (pairs.isEmpty || pairs.all fun p => isBlank p.2) = true
    · have hfilt : (pairs.filter fun p => !isBlank p.2) = [] := by
        rcases Bool.or_eq_true_iff.mp hall with he | hb
        · simp [List.isEmpty_iff.mp he]
        · exact List.filter_eq_nil_iff.mpr fun p hp => by
            simp [List.all_eq_true.mp hb p hp]
      simp [enrich_query, hall, hfilt]
    · have hne : pairs.isEmpty = false := by
        rcases Bool.or_eq_false_iff.mp (Bool.eq_false_iff.mpr hall) with ⟨h1, _⟩
        exact h1
      have hnall : pairs.all (fun p => isBlank p.2) = false := by
        rcases Bool.or_eq_false_iff.mp (Bool.eq_false_iff.mpr hall) with ⟨_, h2⟩
        exact h2
      have hex : ∃ p ∈ pairs, isBlank p.2 = false := by
        by_contra hcon
        push_neg at hcon
        have : pairs.all (fun p => isBlank p.2) = true :=
          List.all_eq_true.mpr fun p hp => by simpa using hcon p hp
        simp [this] at hnall
      obtain ⟨p, hp, hbp⟩ := hex
      have hpf : p ∈ pairs.filter fun r => !isBlank r.2 :=
        List.mem_filter.mpr ⟨hp, by simp [hbp]⟩
      have hfe : (pairs.filter fun r => !isBlank r.2).isEmpty = false := by
        refine Bool.eq_false_iff.mpr fun hc => ?_
        rw [List.isEmpty_iff.mp hc] at hpf
        cases hpf
      have hfall : ((pairs.filter fun r => !isBlank r.2).all
          fun r => isBlank r.2) = false := by
        refine Bool.eq_false_iff.mpr fun hc => ?_
        have := List.all_eq_true.mp hc p hpf
        simp [hbp] at this
      simp only [enrich_query, hall, hne, hnall, hfe, hfall,
        Bool.or_self, Bool.or_false, Bool.false_or, if_false,
        Bool.false_eq_true, if_neg]
      exact foldl_enrichStep_filter pairs _
  · intro p hp hbp
    have hne : pairs.isEmpty = false := by
      cases pairs
      · cases hp
      · rfl
    have hnall : pairs.all (fun r => isBlank r.2) = false := by
      refine Bool.eq_false_iff.mpr fun hc => ?_
      have := List.all_eq_true.mp hc p hp
      simp [hbp] at this
    have hguard : (pairs.isEmpty || pairs.all fun r => isBlank r.2) = false := by
      simp [hne, hnall]
    constructor
    · have h1 : q.data <:+:
          ("Original Query: " ++ q ++ "\n\nAdditional Context:\n").data :=
        ⟨"Original Query: ".data, "\n\nAdditional Context:\n".data, by
          simp [strData_append, List.append_assoc]⟩
      have h2 : ("Original Query: " ++ q ++
          "\n\nAdditional Context:\n").data <+: (enrich_query q pairs).data := by
        simp only [enrich_query, hguard, Bool.false_eq_true, if_neg,
          if_false]
        exact foldl_enrichStep_grows pairs _
      exact h1.trans h2.isInfix
    · simp only [enrich_query, hguard, Bool.false_eq_true, if_neg, if_false]
      exact foldl_enrichStep_infix_answer pairs p hp hbp _

/-- Witness for `enrich_query_spec`: a blank answer leaves the query
unchanged; a non-blank answer embeds both query and answer. -/
theorem enrich_query_spec_witness :
    enrich_query "q" [("Q", "")] = "q" ∧
    ("q".data <:+: (enrich_query "q" [("Q", "A")]).data ∧
     "A".data <:+: (enrich_query "q" [("Q", "A")]).data) :=
  ⟨(enrich_query_spec "q" [("Q", "")]).2.1 (by decide),
   (enrich_query_spec "q" [("Q", "A")]).2.2.2 ("Q", "A") (by decide)
     (by decide)⟩

/-- `unpackPair` fails only with a `ValueError`. -/
theorem unpackPair_eq_error (s e : String) (h : unpackPair s = .error e) :
    e = "ValueError" := by
  unfold unpackPair at h
  split at h
  · cases h
  · injection h with h'
    exact h'.symm

/-- Unpacking a successful element means it had exactly two characters. -/
theorem unpackPair_ok_length (s : String) (p : String × String)
    (h : unpackPair s = .ok p) : s.length = 2 := by
  unfold unpackPair at h
  split at h
  · next c1 c2 heq => simp [String.length, heq]
  · cases h

/-- A list containing an element whose length is not 2 fails to unpack. -/
theorem unpackAll_error (l : List String) (s : String) (hs : s ∈ l)
    (hlen : s.length ≠ 2) : unpackAll l = .error "ValueError" := by
  induction l with
  | nil => cases hs
  | cons a t ih =>
    cases hu : unpackPair a with
    | error e =>
      have he := unpackPair_eq_error a e hu
      subst he
      simp [unpackAll, hu]
    | ok p =>
      rcases List.mem_cons.mp hs with h | h
      · exact absurd (h ▸ unpackPair_ok_length a p hu) hlen
      · simp [unpackAll, hu, ih h]

/-- C10: `run` feeds its `clarifying_answers: list[str]` straight into
`enrich_query`, which tuple-unpacks each element; hence for every non-empty
answer list containing a string whose length is not 2, `run` raises a
`ValueError` before the classifier, planner, search, writer or evaluator is
ever invoked (all call counters are 0), for every choice of external
capabilities. -/
theorem run_string_answers_raise (query : String) (answers : List String)
    (ro : Option String) (tid : String) (classify : String → QueryRoute)
    (planner : String → WebSearchPlan)
    (sc : String → Except String String)
    (schedule : List WebSearchItem → List WebSearchItem)
    (writer : String → List String → String → ReportData)
    (evaluator : String → ReportData → List String → ReportEvaluation)
    (emailer : String → Except String Unit) (s : String) (hs : s ∈ answers)
    (hlen : s.length ≠ 2) :
    run query (some answers) ro tid classify planner sc schedule writer
      evaluator emailer = (.error "ValueError", ⟨0, 0, 0, 0, 0⟩) := by
  have hne : answers.isEmpty = false := by
    cases answers
    · cases hs
    · rfl
  have herr : enrich_query_strings query answers = .error "ValueError" := by
    simp [enrich_query_strings, unpackAll_error answers s hs hlen]
  simp [run, hne, herr]

/-- Witness for `run_string_answers_raise`: the documented plain-string
answer `"hello"` (length 5) makes `run` raise at once. -/
theorem run_string_answers_raise_witness :
    ("hello" : String) ∈ ["hello"] ∧ ("hello" : String).length ≠ 2 ∧
    run "q" (some ["hello"]) (some "quick") "T" (fun _ => ⟨"deep", "r", 5⟩)
      (fun _ => ⟨[]⟩) (fun _ => .error "e") id (fun _ _ _ => ⟨"MD", "S", []⟩)
      (fun _ _ _ => ⟨true, [], "", 5⟩) (fun _ => .ok ()) =
      (.error "ValueError", ⟨0, 0, 0, 0, 0⟩) :=
  ⟨by decide, by decide,
   run_string_answers_raise "q" ["hello"] (some "quick") "T"
     (fun _ => ⟨"deep", "r", 5⟩) (fun _ => ⟨[]⟩) (fun _ => .error "e") id
     (fun _ _ _ => ⟨"MD", "S", []⟩) (fun _ _ _ => ⟨true, [], "", 5⟩)
     (fun _ => .ok ()) "hello" (by decide) (by decide)⟩

/-- C9: whenever `run` completes without error, its emitted stream starts
with the trace-identifier message, continues with the routing messages
(ending in the `Route: ...` status), then the planning-complete,
searches-complete, report-finalized and email-sent statuses in that order,
and terminates with the report's markdown body as the final payload. -/
theorem run_progress_stream (query : String) (ca : Option (List String))
    (ro : Option String) (tid : String) (classify : String → QueryRoute)
    (planner : String → WebSearchPlan)
    (sc : String → Except String String)
    (schedule : List WebSearchItem → List WebSearchItem)
    (writer : String → List String → String → ReportData)
    (evaluator : String → ReportData → List String → ReportEvaluation)
    (emailer : String → Except String Unit) (msgs : List String)
    (cnt : Counters)
    (h : run query ca ro tid classify planner sc schedule writer evaluator
      emailer = (.ok msgs, cnt)) :
    ∃ (m1 : String) (route : QueryRoute) (report : ReportData),
      msgs = trace_message tid :: m1 ::
        ("Route: " ++ route.route ++ " (" ++ route.reasoning ++ ")") ::
        "Searches planned, starting to search..." ::
        "Searches complete, writing report..." ::
        "Report finalized, sending email..." ::
        "Email sent, research complete" ::
        [report.markdown_report] := by
  simp only [run] at h
  repeat' split at h
  all_goals simp only [Prod.mk.injEq, Except.ok.injEq, reduceCtorEq,
    false_and, and_false] at h
  all_goals obtain ⟨h1, -⟩ := h
  all_goals subst h1
  all_goals exact ⟨_, _, _, rfl⟩

/-- Witness for `run_progress_stream`: a concrete completed run with a
manual quick route emits the full ordered stream. -/
theorem run_progress_stream_witness :
    (run "q" none (some "quick") "T" (fun _ => ⟨"deep", "r", 5⟩)
        (fun _ => ⟨[]⟩) (fun _ => .error "e") id
        (fun _ _ _ => ⟨"MD", "S", []⟩) (fun _ _ _ => ⟨true, [], "", 5⟩)
        (fun _ => .ok ()) =
      (.ok ["View trace: https://platform.openai.com/traces/trace?trace_id=T",
        "Using manual route: quick",
        "Route: quick (Manually selected quick route)",
        "Searches planned, starting to search...",
        "Searches complete, writing report...",
        "Report finalized, sending email...",
        "Email sent, research complete", "MD"], ⟨0, 1, 0, 1, 0⟩)) ∧
    (∃ (m1 : String) (route : QueryRoute) (report : ReportData),
      ["View trace: https://platform.openai.com/traces/trace?trace_id=T",
        "Using manual route: quick",
        "Route: quick (Manually selected quick route)",
        "Searches planned, starting to search...",
        "Searches complete, writing report...",
        "Report finalized, sending email...",
        "Email sent, research complete", "MD"] =
        trace_message "T" :: m1 ::
          ("Route: " ++ route.route ++ " (" ++ route.reasoning ++ ")") ::
          "Searches planned, starting to search..." ::
          "Searches complete, writing report..." ::
          "Report finalized, sending email..." ::
          "Email sent, research complete" ::
          [report.markdown_report]) :=
  ⟨rfl,
   run_progress_stream "q" none (some "quick") "T" (fun _ => ⟨"deep", "r", 5⟩)
     (fun _ => ⟨[]⟩) (fun _ => .error "e") id
     (fun _ _ _ => ⟨"MD", "S", []⟩) (fun _ _ _ => ⟨true, [], "", 5⟩)
     (fun _ => .ok ())
     ["View trace: https://platform.openai.com/traces/trace?trace_id=T",
      "Using manual route: quick",
      "Route: quick (Manually selected quick route)",
      "Searches planned, starting to search...",
      "Searches complete, writing report...",
      "Report finalized, sending email...",
      "Email sent, research complete", "MD"] ⟨0, 1, 0, 1, 0⟩ rfl⟩

end DeepResearch
